import Mathlib

set_option maxRecDepth 8192

/-!
Verification of the MemoryTauAPI client library (Python sources under
src/memorytauapi/) against its natural-language specification.

Python strings are modelled as Lean strings where only equality matters, and
as lists of characters (PyStr) where structural reasoning on the contents is
needed.  Machine integers do not occur in the modelled fragments; Python ints
are modelled as Int, Python timedelta values as exact microsecond counts.
Fallible Python code (raise) is modelled with Except or explicit result
constructors.
-/

/-- Python strings, modelled as lists of characters for structural reasoning. -/
abbrev PyStr := List Char

/-- Decidable equality of Except values, for evaluating the embeddings of
fallible code on concrete inputs. -/
instance exceptDecidableEq {ε α : Type} [DecidableEq ε] [DecidableEq α] :
    DecidableEq (Except ε α) := fun x y =>
  match x, y with
  | Except.ok a, Except.ok b =>
    if h : a = b then isTrue (h ▸ rfl)
    else isFalse (fun hc => h (by injection hc))
  | Except.error a, Except.error b =>
    if h : a = b then isTrue (h ▸ rfl)
    else isFalse (fun hc => h (by injection hc))
  | Except.ok _, Except.error _ => isFalse (fun hc => Except.noConfusion hc)
  | Except.error _, Except.ok _ => isFalse (fun hc => Except.noConfusion hc)

/- =========================================================================
   C1 : MemoryTauPage.__load (memorytaupage.py lines 75-137)
   ========================================================================= -/

/-- One entry of the pages map of the info|pageprops query response:
the presence of the key "missing" and the value of the key "title"
(memorytaupage.py lines 96-107). -/
structure LoadPage where
  missing : Bool
  title : String
  deriving DecidableEq

/-- The query section of the info|pageprops response consumed by __load:
the pages map (pageid key to page object, the code uses the first entry, line
95), the first entry of the optional redirects array as a from/to pair (lines
107-120), and the first entry of the optional normalized array (lines
110-113). -/
structure LoadQuery where
  pages : List (String × LoadPage)
  redirects : Option (String × String)
  normalized : Option (String × String)
  deriving DecidableEq

/-- Outcome of one pass of MemoryTauPage.__load over a response:
ok (populate pageid and title, lines 134-135), PageError raised (lines
99-103), RedirectError raised (line 132), reload (the redirect-following
re-run of __init__ with the redirect target, lines 124-129), or
internalError (a failed assert, line 112 or 120, or an empty pages map at
line 95). -/
inductive LoadResult where
  | ok (pageid : String) (title : String)
  | raisePageError (title : Option String) (pageid : Option Int)
  | raiseRedirectError (title : String)
  | reload (newTitle : String)
  | internalError
  deriving DecidableEq

/-- Bool discriminator: is the outcome a raised RedirectError. -/
def LoadResult.isRedirectError : LoadResult → Bool
  | LoadResult.raiseRedirectError _ => true
  | _ => false

/-- Shallow embedding of the branch structure of MemoryTauPage.__load
(memorytaupage.py lines 94-135).  selfTitle models the title attribute (set
at lines 38-40 when the page was requested by title, absent otherwise),
selfPageid the pageid attribute.  The code takes the first key of the pages
dict (line 95); raises PageError if the page carries "missing" (lines
99-103); then, if the query carries "redirects" AND the returned page title
differs from the first redirect target (line 107), either follows the
redirect (redirect=True: recompute from_title from normalized / self.title /
redirects.from with two asserts, lines 109-120, then re-init with the
redirect target, modelled as reload, lines 124-129) or raises RedirectError
with the originally requested title when available, else the returned page
title (line 132). -/
def loadStep (selfTitle : Option String) (selfPageid : Option Int) (redirect : Bool)
    (q : LoadQuery) : LoadResult :=
  match q.pages with
  | [] => LoadResult.internalError
  | (pid, page) :: _ =>
    if page.missing then
      match selfTitle with
      | some t => LoadResult.raisePageError (some t) none
      | none => LoadResult.raisePageError none selfPageid
    else
      match q.redirects with
      | some rd =>
        if page.title ≠ rd.2 then
          if redirect then
            match q.normalized with
            | some nz =>
              if some nz.1 = selfTitle then
                if rd.1 = nz.2 then LoadResult.reload rd.2 else LoadResult.internalError
              else LoadResult.internalError
            | none =>
              match selfTitle with
              | some t =>
                if rd.1 = t then LoadResult.reload rd.2 else LoadResult.internalError
              | none =>
                if rd.1 = rd.1 then LoadResult.reload rd.2 else LoadResult.internalError
          else LoadResult.raiseRedirectError (selfTitle.getD page.title)
        else LoadResult.ok pid page.title
      | none => LoadResult.ok pid page.title

/-- The typical server response for a single-hop redirect source A -> B when
the request itself carries the redirects parameter (line 85): the server
resolves the redirect and returns the target page B, plus a redirects entry
from A to B. -/
def c1Query : LoadQuery :=
  ⟨[("1", ⟨false, "B"⟩)], some ("A", "B"), none⟩

/- =========================================================================
   C2 : MemoryTauPage.__continued_query (memorytaupage.py lines 164-200)
   ========================================================================= -/

/-- A continuation token: the continue dict of a response, a mapping of
string keys to string values. -/
abbrev Token := List (String × String)

/-- One server response consumed by __continued_query: the optional query
section with its pages map (pageid key to page record) and the optional
continue dict.  query = none models a response without a "query" key (line
179); cont = none models a response without a "continue" key (lines 183,
196).  In generator mode the page records themselves are yielded (line
190); in non-generator mode a page record is modelled as the optional array
stored under the requested prop key (lines 192-194). -/
structure CQResponse (β : Type) where
  query : Option (List (String × β))
  cont : Option Token

/-- len(request["query"]["pages"]) (lines 185, 200). -/
def CQResponse.pagesLen {β : Type} (r : CQResponse β) : Nat :=
  (r.query.getD []).length

/-- Outcome of running the continuation loop against a server stream:
the loop completed and yielded items; pages[self.pageid] raised KeyError
(possible in non-generator mode only, line 192); or the fuel ran out with
the loop still running, so an out result is a termination statement. -/
inductive CQOutcome (α : Type) where
  | out (items : List α)
  | keyError
  | fuelOut
  deriving DecidableEq

/-- Is an Except value an ok. -/
def exceptOk {ε α : Type} : Except ε α → Bool
  | Except.ok _ => true
  | Except.error _ => false

/-- The value of an ok Except, or a default. -/
def exceptD {ε α : Type} (d : α) : Except ε α → α
  | Except.ok a => a
  | Except.error _ => d

/-- Python dict subscript pages[pid] over the pages map: the value of the
(unique) matching key, none when the key is absent (KeyError). -/
def assocFind {γ : Type} (pid : String) : List (String × γ) → Option γ
  | [] => none
  | (k, v) :: rest => if k = pid then some v else assocFind pid rest

/-- The per-iteration yield step of the generator branch (memorytaupage.py
lines 189-190): yield from pages.values() — every value of the page map in
document order; never fails. -/
def genYield {β : Type} (pages : List (String × β)) : Except Unit (List β) :=
  Except.ok (pages.map Prod.snd)

/-- The per-iteration yield step of the non-generator branch
(memorytaupage.py lines 191-194): pages[self.pageid] raises KeyError when
the pageid key is absent; otherwise, if the requested prop is present in
the page record (modelled as the optional prop array), each element of that
array is yielded, else nothing is yielded. -/
def propYield {α : Type} (pid : String) (pages : List (String × Option (List α))) :
    Except Unit (List α) :=
  match assocFind pid pages with
  | none => Except.error ()
  | some (some items) => Except.ok items
  | some none => Except.ok []

/-- Shallow embedding of the __continued_query loop (memorytaupage.py lines
172-200) run against a deterministic server stream: server i is the
response to the i-th request.  The per-iteration yield step is a parameter:
genYield when query_params carries a generator key (line 189), and
propYield self.pageid otherwise (lines 191-194).  State: lastContinue
models last_continue (initially the empty dict, line 172), lastLenPages
models last_len_pages (initially 0, line 173); fuel bounds the number of
requests.  Per iteration: stop with nothing more if the response has no
query section (lines 179-180); stop if the response carries a continue dict
equal to last_continue while the page count equals last_len_pages (the
stall guard, lines 182-187, checked before any yielding); otherwise yield
this response's items (lines 188-194); stop after yielding if there is no
continue dict (lines 196-197); else update the state and iterate (lines
199-200). -/
def continuedQuery {β α : Type} (yieldOf : List (String × β) → Except Unit (List α)) :
    (Nat → CQResponse β) → Token → Nat → Nat → CQOutcome α
  | _, _, _, 0 => CQOutcome.fuelOut
  | server, lastContinue, lastLenPages, fuel + 1 =>
    match (server 0).query with
    | none => CQOutcome.out []
    | some pages =>
      match (server 0).cont with
      | some c =>
        if c = lastContinue ∧ pages.length = lastLenPages then CQOutcome.out []
        else
          match yieldOf pages with
          | Except.error _ => CQOutcome.keyError
          | Except.ok items =>
            match continuedQuery yieldOf (fun i => server (i + 1)) c pages.length fuel with
            | CQOutcome.out rest => CQOutcome.out (items ++ rest)
            | e => e
      | none =>
        match yieldOf pages with
        | Except.error _ => CQOutcome.keyError
        | Except.ok items => CQOutcome.out items

/-- The concatenation, in server order, of the items yielded from each of
the first k responses of the stream. -/
def drainCQ {β α : Type} (yieldOf : List (String × β) → Except Unit (List α)) :
    (Nat → CQResponse β) → Nat → List α
  | _, 0 => []
  | server, k + 1 =>
    exceptD [] (yieldOf ((server 0).query.getD [])) ++
      drainCQ yieldOf (fun i => server (i + 1)) k

/-- The total number of result items carried by the first k responses. -/
def sumItemsCQ {β α : Type} (yieldOf : List (String × β) → Except Unit (List α)) :
    (Nat → CQResponse β) → Nat → Nat
  | _, 0 => 0
  | server, k + 1 =>
    (exceptD [] (yieldOf ((server 0).query.getD []))).length +
      sumItemsCQ yieldOf (fun i => server (i + 1)) k

/-- A concrete two-response generator-mode server: the first response
carries two pages and a continue dict, the second one page and no continue
dict. -/
def c2server : Nat → CQResponse Nat := fun i =>
  if i = 0 then ⟨some [("p1", 10), ("p2", 20)], some [("clcontinue", "5")]⟩
  else ⟨some [("p3", 30)], none⟩

/-- A concrete two-response non-generator server for pageid 42: each
response keys the page record under "42", carrying two then one prop
items. -/
def c2propServer : Nat → CQResponse (Option (List String)) := fun i =>
  if i = 0 then ⟨some [("42", some ["u1", "u2"])], some [("elcontinue", "2")]⟩
  else ⟨some [("42", some ["u3"])], none⟩

/-- A concrete generator-mode server that stalls at the third response: the
third and every later response repeat the continue dict and page count of
the second. -/
def c2stallServer : Nat → CQResponse Nat := fun i =>
  if i = 0 then ⟨some [("a", 1), ("b", 2)], some [("c", "1")]⟩
  else if i = 1 then ⟨some [("c", 3)], some [("c", "2")]⟩
  else ⟨some [("d", 4)], some [("c", "2")]⟩

/- =========================================================================
   C3 : lazy facet caching pattern (memorytaupage.py lines 215, 234, 252,
        305, 324, 346, 361, 395, 413, and the assignments that follow)
   ========================================================================= -/

/-- The result of one facet property access: the value returned to the
caller, the cache field afterwards, and whether a server request was
issued. -/
structure FacetRead (α : Type) where
  value : α
  cache : Option α
  requested : Bool
  deriving DecidableEq

/-- Shallow embedding of the facet access pattern
  if not getattr(self, "_facet", False): self._facet = fetch()
  return self._facet
shared by content, summary, references, links, backlinks, categories,
sections, html and markdown.  cache = none models the initial None value of
the cache attribute (set in __init__, lines 26-37); the recompute condition
is Python falsiness of the cached value (None, or an empty string or list),
passed in as the falsy predicate.  fetch is the value the server would
return for a fresh request. -/
def facetGet {α : Type} (falsy : α → Bool) (fetch : α) (cache : Option α) : FacetRead α :=
  match cache with
  | none => ⟨fetch, some fetch, true⟩
  | some v => if falsy v then ⟨fetch, some fetch, true⟩ else ⟨v, some v, false⟩

/-- Python falsiness of a string: empty. -/
def pyStrFalsy (s : PyStr) : Bool := s.isEmpty

/-- Python falsiness of a list: empty. -/
def pyListFalsy {β : Type} (l : List β) : Bool := l.isEmpty

/- =========================================================================
   C4 : preload loop (memorytaupage.py lines 48-58)
   ========================================================================= -/

/-- The attribute names available on a constructed MemoryTauPage: the
instance attributes assigned in __init__ and __load and the methods and
properties defined by the class (memorytaupage.py lines 26-46, 60-74,
134-138, 209, 228, 247, 271, 289, 300, 318, 338, 356, 377, 390, 408, 430). -/
def memoryTauPageAttrs : List String :=
  ["title", "original_title", "pageid", "url", "pageprops", "disambiguate_pages",
   "request", "html", "markdown", "content", "revision_id", "parent_id", "summary",
   "references", "links", "backlinks", "backlinks_ids", "categories", "sections",
   "section", "_markdown", "_backlinks", "_backlinks_ids", "_categories", "_content",
   "_html", "_links", "_parent_id", "_references", "_revision_id", "_sections",
   "_summary"]

/-- The tuple of property names iterated by the preload loop
(memorytaupage.py lines 49-57). -/
def preloadProps : List String :=
  ["content", "summary", "images", "references", "links", "sections", "infobox"]

/-- getattr(self, p) on a MemoryTauPage: ok when the attribute exists,
AttributeError (carrying the missing name) otherwise. -/
def getattrCheck (p : String) : Except String Unit :=
  if p ∈ memoryTauPageAttrs then Except.ok () else Except.error p

/-- The preload loop of __init__ (lines 48-58): getattr each name in turn,
stopping at the first AttributeError. -/
def preloadEval : List String → Except String Unit
  | [] => Except.ok ()
  | p :: ps =>
    match getattrCheck p with
    | Except.ok _ => preloadEval ps
    | Except.error e => Except.error e

/-- The lazy facets of spec section 4.5 that claim C4 says preload
evaluates. -/
def specSection45Facets : List String :=
  ["content", "summary", "references", "links", "backlinks", "categories",
   "sections", "html", "markdown"]

/- =========================================================================
   C5 : argument validation (memorytaupage.py lines 38-44,
        memorytauapi.py lines 130-152)
   ========================================================================= -/

/-- The typed Python exceptions relevant to page resolution. -/
inductive PyExn where
  | pageError
  | redirectError
  | valueError
  deriving DecidableEq

/-- The title/pageid argument validation shared by MemoryTauPage.__init__
(memorytaupage.py lines 38-44) and MemoryTauAPI.page (memorytauapi.py lines
130-152): if a title is given proceed, elif a pageid is given proceed, else
raise ValueError("Either a title or a pageid must be specified"). -/
def pageArgsCheck (title : Option String) (pageid : Option Int) : Except PyExn Unit :=
  match title with
  | some _ => Except.ok ()
  | none =>
    match pageid with
    | some _ => Except.ok ()
    | none => Except.error PyExn.valueError

/- =========================================================================
   C6 : references (memorytaupage.py lines 318-336)
   ========================================================================= -/

/-- add_protocol (memorytaupage.py lines 326-327):
  return url if url.startswith("http") else "http:" + url -/
def addProtocol (url : PyStr) : PyStr :=
  if "http".toList.isPrefixOf url then url else "http:".toList ++ url

/-- The references list (lines 329-334): add_protocol mapped over the
URL strings (the "*" field of each extlink datum) drained from the
continuation engine, in drained order. -/
def referencesFromLinks (ls : List PyStr) : List PyStr := ls.map addProtocol

/- =========================================================================
   C7 : categories (memorytaupage.py lines 390-406)
   ========================================================================= -/

/-- re.sub(r"^Category:", "", x) (line 397): the pattern is anchored at the
start of the string, so exactly one leading "Category:" is removed when
present and the string is otherwise unchanged. -/
def stripCategoryNs (t : PyStr) : PyStr :=
  if "Category:".toList.isPrefixOf t then t.drop ("Category:".toList.length) else t

/-- The categories list (lines 396-404): the anchored substitution mapped
over the title strings drained from the continuation engine. -/
def categoriesFromTitles (ts : List PyStr) : List PyStr := ts.map stripCategoryNs

/- =========================================================================
   C8 : Config rate limit (config.py lines 14-25 and 36-57)
   ========================================================================= -/

/-- The value supplied for rate_limit: None, a Python int, or a timedelta
(modelled as an exact microsecond count). -/
inductive RateLimitArg where
  | noneArg
  | intArg (n : Int)
  | tdArg (microseconds : Int)
  deriving DecidableEq

/-- timedelta(milliseconds=n) as exact microseconds. -/
def msTimedelta (n : Int) : Int := n * 1000

/-- Config.__init__ rate limit handling (config.py lines 21-23): an int is
converted with timedelta(milliseconds=...), anything else (None or a
timedelta) is stored as supplied.  The stored value is the private
__rate_limit field, in microseconds, none when rate limiting is off. -/
def configInitRateLimit : RateLimitArg → Option Int
  | RateLimitArg.intArg n => some (msTimedelta n)
  | RateLimitArg.noneArg => none
  | RateLimitArg.tdArg us => some us

/-- The rate_limit setter (config.py lines 52-57): None disables, a
timedelta is stored as supplied, anything else is converted with
timedelta(milliseconds=...). -/
def rateLimitSet : RateLimitArg → Option Int
  | RateLimitArg.noneArg => none
  | RateLimitArg.tdArg us => some us
  | RateLimitArg.intArg n => some (msTimedelta n)

/- =========================================================================
   C9 : section (memorytaupage.py lines 430-453)
   ========================================================================= -/

/-- Does sub occur in s at position i: sub is a prefix of s with the first
i characters removed. -/
def occursAt (s sub : PyStr) (i : Nat) : Bool := sub.isPrefixOf (s.drop i)

/-- Declarative first-occurrence-at-or-after-start: sub occurs at i, i is at
least start, and sub occurs at no earlier position at or after start.  This
is the contract of Python str.index(sub, start). -/
def firstOccurFrom (s sub : PyStr) (start i : Nat) : Prop :=
  start ≤ i ∧ occursAt s sub i = true ∧
    ∀ j, j < i → start ≤ j → occursAt s sub j = false

/-- First occurrence is decidable: the minimality clause is a bounded
quantifier over positions below i. -/
instance firstOccurFromDecidable (s sub : PyStr) (start i : Nat) :
    Decidable (firstOccurFrom s sub start i) := by
  unfold firstOccurFrom
  infer_instance

/-- Bounded linear scan for the first occurrence of sub in s, beginning at
position i, trying at most fuel positions. -/
def findFromAux (s sub : PyStr) : Nat → Nat → Option Nat
  | _, 0 => none
  | i, fuel + 1 =>
    if occursAt s sub i = true then some i else findFromAux s sub (i + 1) fuel

/-- Python str.find/str.index(sub, start): the least position at or after
start where sub occurs, none when there is none.  The scan covers every
candidate position up to len(s). -/
def strFind (s sub : PyStr) (start : Nat) : Option Nat :=
  findFromAux s sub start (s.length + 1 - start)

/-- "== {} ==".format(section_title) (line 442), as an explicit character
list: two equals signs, a space, the title, a space, two equals signs. -/
def sectionFmt (title : PyStr) : PyStr :=
  '=' :: '=' :: ' ' :: (title ++ [' ', '=', '='])

/-- The "==" needle of the next-heading search (line 449). -/
def eqeqStr : PyStr := ['=', '=']

/-- Python str.lstrip("=") : remove every leading equals sign. -/
def pyLstripEq : PyStr → PyStr
  | [] => []
  | c :: cs => if c = '=' then pyLstripEq cs else c :: cs

/-- Python whitespace for str.strip(): space, tab, newline, carriage return,
vertical tab, form feed. -/
def pyIsSpace (c : Char) : Bool :=
  c = ' ' || c = '\t' || c = '\n' || c = '\r' || c = '\x0b' || c = '\x0c'

/-- Python str.strip(): remove leading and trailing whitespace. -/
def pyStripWs (l : PyStr) : PyStr :=
  ((l.dropWhile pyIsSpace).reverse.dropWhile pyIsSpace).reverse

/-- Shallow embedding of MemoryTauPage.section (memorytaupage.py lines
430-453): build the heading marker, find its first occurrence in content
(ValueError, i.e. none, when absent, lines 443-446); find the next "=="
at or after the end of the marker, defaulting to len(content) (lines
448-451); return the slice between, lstripped of equals signs and stripped
of whitespace (line 453). -/
def sectionOf (content title : PyStr) : Option PyStr :=
  let sec := sectionFmt title
  match strFind content sec 0 with
  | none => none
  | some i =>
    let idx := i + sec.length
    let nextIdx := (strFind content eqeqStr idx).getD content.length
    some (pyStripWs (pyLstripEq ((content.drop idx).take (nextIdx - idx))))

/-- The content string of the spec example for section(). -/
def introContent : PyStr := "== Intro ==\nhello\n== Next ==\n...".toList

/- =========================================================================
   C10 : MemoryTauAPI.random (memorytauapi.py lines 75-96)
   ========================================================================= -/

/-- The two result shapes of random(): a bare title string, or a list of
title strings. -/
inductive RandomResult where
  | single (title : String)
  | multiple (titles : List String)
  deriving DecidableEq

/-- The tail of MemoryTauAPI.random (memorytauapi.py lines 93-96): collect
the title of every entry of query.random; if the collected list has length
exactly one return its only element bare, otherwise return the list. -/
def randomTitles : List String → RandomResult
  | [t] => RandomResult.single t
  | ts => RandomResult.multiple ts

/- =========================================================================
   Shared helper lemmas
   ========================================================================= -/

/-- Boolean prefix test agrees with an existential append decomposition. -/
theorem isPrefixOf_iff_exists {α : Type} [BEq α] [LawfulBEq α] (p : List α) :
    ∀ l : List α, p.isPrefixOf l = true ↔ ∃ t, p ++ t = l := by
  induction p with
  | nil =>
    intro l
    simp [List.isPrefixOf]
  | cons a p ih =>
    intro l
    cases l with
    | nil => simp [List.isPrefixOf]
    | cons b l =>
      simp only [List.isPrefixOf, Bool.and_eq_true, beq_iff_eq, List.cons_append,
        List.cons.injEq]
      constructor
      · rintro ⟨rfl, h⟩
        obtain ⟨t, rfl⟩ := (ih l).1 h
        exact ⟨t, rfl, rfl⟩
      · rintro ⟨t, rfl, ht⟩
        exact ⟨rfl, (ih l).2 ⟨t, ht⟩⟩

/- =========================================================================
   C1
   ========================================================================= -/

/-- C1, counterexample: the claim says that every response whose query
section carries a redirects entry makes resolution with followRedirect=false
fail with RedirectError and never return a Page.  On the typical single-hop
redirect response (redirects from A to B, returned page titled B) __load
with redirect=False returns a Page and raises nothing, because line 107 also
requires the returned page title to differ from the first redirect target. -/
theorem C1_counterexample :
    c1Query.redirects = some ("A", "B") ∧
    loadStep (some "A") none false c1Query = LoadResult.ok "1" "B" ∧
    (loadStep (some "A") none false c1Query).isRedirectError = false := by
  decide

/-- C1, amended: with followRedirect=false and a non-missing page, a
response carrying a redirects entry raises RedirectError (with the
originally requested title when available, else the returned page title)
exactly when the first redirect target differs from the returned page
title; when they agree, a Page is returned. -/
theorem C1_amended :
    ∀ (selfTitle : Option String) (selfPageid : Option Int) (q : LoadQuery)
      (pid : String) (page : LoadPage) (rest : List (String × LoadPage))
      (rd : String × String),
      q.pages = (pid, page) :: rest → page.missing = false → q.redirects = some rd →
      (page.title ≠ rd.2 →
        loadStep selfTitle selfPageid false q =
          LoadResult.raiseRedirectError (selfTitle.getD page.title)) ∧
      (page.title = rd.2 →
        loadStep selfTitle selfPageid false q = LoadResult.ok pid page.title) := by
  intro st sp q pid page rest rd hp hm hr
  constructor
  · intro hne
    simp [loadStep, hp, hm, hr, hne]
  · intro heq
    simp [loadStep, hp, hm, hr, heq]

/-- C1 witness: a chained-redirect style response (returned title C, first
redirect target B) with followRedirect=false raises RedirectError carrying
the requested title A. -/
theorem C1_amended_witness :
    loadStep (some "A") none false ⟨[("7", ⟨false, "C"⟩)], some ("A", "B"), none⟩ =
      LoadResult.raiseRedirectError "A" :=
  (C1_amended (some "A") none ⟨[("7", ⟨false, "C"⟩)], some ("A", "B"), none⟩
    "7" ⟨false, "C"⟩ [] ("A", "B") rfl rfl rfl).1 (by decide)

/- =========================================================================
   C3
   ========================================================================= -/

/-- C3, counterexample: the claim says a computed facet is never refetched,
including when the computed value is empty.  After content is computed as
the empty string (cache = some "") the next access issues a new request,
because the guard tests Python falsiness; the same holds for a list facet
such as references computed as the empty list. -/
theorem C3_counterexample :
    (facetGet pyStrFalsy ([] : PyStr) ((facetGet pyStrFalsy ([] : PyStr) none).cache)).requested
        = true ∧
    (facetGet (pyListFalsy : List PyStr → Bool) ([] : List PyStr)
      ((facetGet (pyListFalsy : List PyStr → Bool) ([] : List PyStr) none).cache)).requested
        = true := by
  decide

/-- C3, amended: once a facet is computed with a truthy (non-falsy) value,
every subsequent access returns the cached value, leaves the cache
unchanged and issues no request; a first access (cache None) always issues
a request; a cached falsy value (empty string or list) is refetched with a
new request on every access. -/
theorem C3_amended :
    (∀ (α : Type) (falsy : α → Bool) (fetch v : α), falsy v = false →
      facetGet falsy fetch (some v) = ⟨v, some v, false⟩) ∧
    (∀ (α : Type) (falsy : α → Bool) (fetch : α),
      facetGet falsy fetch none = ⟨fetch, some fetch, true⟩) ∧
    (∀ (α : Type) (falsy : α → Bool) (fetch v : α), falsy v = true →
      facetGet falsy fetch (some v) = ⟨fetch, some fetch, true⟩) := by
  refine ⟨?_, fun α falsy fetch => rfl, ?_⟩
  · intro α falsy fetch v hv
    simp [facetGet, hv]
  · intro α falsy fetch v hv
    simp [facetGet, hv]

/-- C3 witness: a cached non-empty content string is returned as is, with
the cache unchanged and no request issued. -/
theorem C3_amended_witness :
    facetGet pyStrFalsy "fresh".toList (some "cached".toList) =
      ⟨"cached".toList, some "cached".toList, false⟩ :=
  C3_amended.1 PyStr pyStrFalsy "fresh".toList "cached".toList (by decide)

/- =========================================================================
   C4
   ========================================================================= -/

/-- C4 (code bug): constructing a Page with preload=true does not evaluate
every lazy facet of spec section 4.5 and does not return without error: the
preload tuple names "images" (and "infobox"), which is not an attribute of
MemoryTauPage, so the loop raises AttributeError at "images" right after
content and summary; backlinks, categories, html and markdown are absent
from the tuple although the spec lists them. -/
theorem C4_preload_attribute_error :
    preloadEval preloadProps = Except.error "images" ∧
    "images" ∉ memoryTauPageAttrs ∧
    "images" ∈ preloadProps ∧
    "backlinks" ∈ specSection45Facets ∧ "backlinks" ∉ preloadProps ∧
    "categories" ∈ specSection45Facets ∧ "categories" ∉ preloadProps ∧
    "html" ∈ specSection45Facets ∧ "html" ∉ preloadProps ∧
    "markdown" ∈ specSection45Facets ∧ "markdown" ∉ preloadProps := by
  decide

/- =========================================================================
   C5
   ========================================================================= -/

/-- C5, counterexample: the claim says a resolution call with neither title
nor pageid fails with PageError; the code raises ValueError, which is a
distinct exception. -/
theorem C5_counterexample :
    pageArgsCheck none none = Except.error PyExn.valueError ∧
    (Except.error PyExn.valueError ≠
      (Except.error PyExn.pageError : Except PyExn Unit)) := by
  decide

/-- C5, amended: page construction with neither a title nor a pageid fails
with ValueError (not PageError); with a title or a pageid supplied the
argument check passes. -/
theorem C5_amended :
    pageArgsCheck none none = Except.error PyExn.valueError ∧
    (∀ (t : String) (pid : Option Int), pageArgsCheck (some t) pid = Except.ok ()) ∧
    (∀ pid : Int, pageArgsCheck none (some pid) = Except.ok ()) :=
  ⟨rfl, fun _ _ => rfl, fun _ => rfl⟩

/- =========================================================================
   C6
   ========================================================================= -/

/-- A Bool that is not true is false. -/
theorem bool_eq_false {b : Bool} (h : ¬b = true) : b = false := by
  cases b
  · rfl
  · exact absurd rfl h

/-- C6, counterexample: the claim says every returned reference begins with
a scheme, http: or https:.  A bare URL beginning with the four characters
http but no colon, such as httpd.apache.org, passes the startswith("http")
test, is returned unchanged, and begins with neither http: nor https:. -/
theorem C6_counterexample :
    referencesFromLinks ["httpd.apache.org".toList] = ["httpd.apache.org".toList] ∧
    "http:".toList.isPrefixOf "httpd.apache.org".toList = false ∧
    "https:".toList.isPrefixOf "httpd.apache.org".toList = false := by
  decide

/-- C6, amended: every returned reference begins with the four characters
http (a URL already beginning with http, even schemeless, is returned
unchanged; every other URL, in particular a protocol-relative one, is
rewritten by prefixing http:). -/
theorem C6_amended :
    (∀ (ls : List PyStr) (r : PyStr), r ∈ referencesFromLinks ls →
      "http".toList.isPrefixOf r = true) ∧
    (∀ u : PyStr, "http".toList.isPrefixOf u = false →
      addProtocol u = "http:".toList ++ u) ∧
    addProtocol "//example.org".toList = "http://example.org".toList := by
  refine ⟨?_, ?_, by decide⟩
  · intro ls r hr
    rw [referencesFromLinks, List.mem_map] at hr
    obtain ⟨u, _, rfl⟩ := hr
    by_cases h : "http".toList.isPrefixOf u = true
    · rw [addProtocol, if_pos h]
      exact h
    · rw [addProtocol, if_neg h]
      refine (isPrefixOf_iff_exists _ _).2 ⟨':' :: u, ?_⟩
      have h4 : "http:".toList = "http".toList ++ [':'] := by decide
      rw [h4, List.append_assoc]
      rfl
  · intro u hu
    rw [addProtocol, if_neg (by rw [hu]; exact Bool.false_ne_true)]

/-- C6 witness: a drained reference with a scheme keeps its http prefix, and
a protocol-relative URL is rewritten by prefixing http:. -/
theorem C6_amended_witness :
    "http".toList.isPrefixOf "http://a.b".toList = true ∧
    addProtocol "//wiki.example".toList = "http:".toList ++ "//wiki.example".toList :=
  ⟨C6_amended.1 ["http://a.b".toList] "http://a.b".toList (by decide),
   C6_amended.2.1 "//wiki.example".toList (by decide)⟩

/- =========================================================================
   C7
   ========================================================================= -/

/-- C7, counterexample: the claim says returned category entries never
contain the Category: namespace prefix even when the server includes it.
The anchored substitution removes exactly one leading prefix, so a server
title with the prefix doubled yields an entry that still begins with
Category:. -/
theorem C7_counterexample :
    categoriesFromTitles ["Category:Category:Music".toList] =
      ["Category:Music".toList] ∧
    "Category:".toList.isPrefixOf "Category:Music".toList = true := by
  decide

/-- C7, amended: exactly one leading Category: prefix is stripped from each
returned title (a title without the leading prefix is returned unchanged),
so an entry begins with Category: only when the server title began with the
prefix doubled. -/
theorem C7_amended :
    (∀ rest : PyStr, stripCategoryNs ("Category:".toList ++ rest) = rest) ∧
    (∀ u : PyStr, "Category:".toList.isPrefixOf u = false → stripCategoryNs u = u) ∧
    (∀ (ts : List PyStr) (t : PyStr), t ∈ categoriesFromTitles ts →
      (∀ u, u ∈ ts → "Category:Category:".toList.isPrefixOf u = false) →
      "Category:".toList.isPrefixOf t = false) := by
  refine ⟨?_, ?_, ?_⟩
  · intro rest
    rw [stripCategoryNs,
      if_pos ((isPrefixOf_iff_exists _ _).2 ⟨rest, rfl⟩), List.drop_left]
  · intro u hu
    rw [stripCategoryNs, if_neg (by rw [hu]; exact Bool.false_ne_true)]
  · intro ts t ht hts
    rw [categoriesFromTitles, List.mem_map] at ht
    obtain ⟨u, hu, rfl⟩ := ht
    have hdd := hts u hu
    by_cases hcat : "Category:".toList.isPrefixOf u = true
    · obtain ⟨rest, hrest⟩ := (isPrefixOf_iff_exists _ _).1 hcat
      rw [stripCategoryNs, if_pos hcat, ← hrest, List.drop_left]
      by_cases h2 : "Category:".toList.isPrefixOf rest = true
      · exfalso
        obtain ⟨r2, hr2⟩ := (isPrefixOf_iff_exists _ _).1 h2
        have hcc : "Category:Category:".toList.isPrefixOf u = true := by
          refine (isPrefixOf_iff_exists _ _).2 ⟨r2, ?_⟩
          have hdouble : "Category:Category:".toList =
              "Category:".toList ++ "Category:".toList := by decide
          rw [hdouble, List.append_assoc, hr2, hrest]
        rw [hcc] at hdd
        exact Bool.noConfusion hdd
      · exact bool_eq_false h2
    · rw [stripCategoryNs, if_neg hcat]
      exact bool_eq_false hcat

/-- C7 witness: a singly prefixed server title yields an entry free of the
Category: prefix. -/
theorem C7_amended_witness :
    "Category:".toList.isPrefixOf (stripCategoryNs "Category:Music".toList) = false :=
  C7_amended.2.2 ["Category:Music".toList] (stripCategoryNs "Category:Music".toList)
    (by decide) (by decide)

/- =========================================================================
   C8
   ========================================================================= -/

/-- C8, counterexample: the claim says the stored rate-limit interval is
always unset or non-negative.  Passing the int -5 to the constructor or the
setter stores timedelta(milliseconds=-5), a negative duration, with no
check. -/
theorem C8_counterexample :
    configInitRateLimit (RateLimitArg.intArg (-5)) = some (-5000) ∧
    rateLimitSet (RateLimitArg.intArg (-5)) = some (-5000) ∧
    ¬(0 ≤ (-5000 : Int)) := by
  decide

/-- C8, amended: after construction and after every assignment the stored
rate limit is None (rate limiting disabled) or exactly the supplied
duration: an int argument is converted as a duration in milliseconds (1000
microseconds per unit, never interpreted as a raw timestamp), a timedelta
is stored as supplied; the stored value is non-negative whenever the
supplied value is, but a negative argument is stored negative, with no
non-negativity enforcement. -/
theorem C8_amended :
    (∀ n : Int, configInitRateLimit (RateLimitArg.intArg n) = some (n * 1000) ∧
      rateLimitSet (RateLimitArg.intArg n) = some (n * 1000)) ∧
    (configInitRateLimit RateLimitArg.noneArg = none ∧
      rateLimitSet RateLimitArg.noneArg = none) ∧
    (∀ us : Int, configInitRateLimit (RateLimitArg.tdArg us) = some us ∧
      rateLimitSet (RateLimitArg.tdArg us) = some us) ∧
    (∀ n : Int, 0 ≤ n → ∀ d : Int,
      configInitRateLimit (RateLimitArg.intArg n) = some d → 0 ≤ d) := by
  refine ⟨fun n => ⟨rfl, rfl⟩, ⟨rfl, rfl⟩, fun us => ⟨rfl, rfl⟩, ?_⟩
  intro n hn d hd
  simp only [configInitRateLimit, msTimedelta, Option.some.injEq] at hd
  omega

/-- C8 witness: the int 50 is stored as 50 milliseconds, a non-negative
duration. -/
theorem C8_amended_witness :
    configInitRateLimit (RateLimitArg.intArg 50) = some (50 * 1000) ∧
    (0 : Int) ≤ 50000 :=
  ⟨(C8_amended.1 50).1, C8_amended.2.2.2 50 (by decide) 50000 (by decide)⟩

/- =========================================================================
   C10
   ========================================================================= -/

/-- C10: random returns a bare title string whenever the collected title
list has exactly one element (so for the default pages=1 whenever the server
returns one title), and returns the list of titles whenever it has zero or
more than one element. -/
theorem C10_random :
    (∀ t : String, randomTitles [t] = RandomResult.single t) ∧
    (∀ ts : List String, ts.length ≠ 1 → randomTitles ts = RandomResult.multiple ts) := by
  constructor
  · intro t
    rfl
  · intro ts h
    cases ts with
    | nil => rfl
    | cons a tl =>
      cases tl with
      | nil => exact absurd rfl h
      | cons b tl2 => rfl

/-- C10 witness: a two-title response is returned as a list, a zero-title
response as an empty list. -/
theorem C10_random_witness :
    randomTitles ["A", "B"] = RandomResult.multiple ["A", "B"] ∧
    randomTitles [] = RandomResult.multiple [] :=
  ⟨C10_random.2 ["A", "B"] (by decide), C10_random.2 [] (by decide)⟩

/- =========================================================================
   C2
   ========================================================================= -/

/-- From exceptOk it follows that the Except is an ok. -/
theorem exceptOk_exists {ε α : Type} (e : Except ε α) (h : exceptOk e = true) :
    ∃ a, e = Except.ok a := by
  cases e with
  | ok a => exact ⟨a, rfl⟩
  | error _ => exact Bool.noConfusion h

/-- The non-generator yield step succeeds whenever the pageid key is
present in the pages map. -/
theorem propYield_ok {α : Type} (pid : String) (pages : List (String × Option (List α)))
    (h : (assocFind pid pages).isSome = true) :
    exceptOk (propYield pid pages) = true := by
  cases hl : assocFind pid pages with
  | none => rw [hl] at h; exact Bool.noConfusion h
  | some rec =>
    cases rec with
    | none => simp [propYield, hl, exceptOk]
    | some items => simp [propYield, hl, exceptOk]

/-- The drained concatenation carries exactly the total item count. -/
theorem drainCQ_length {β α : Type} (yieldOf : List (String × β) → Except Unit (List α)) :
    ∀ (k : Nat) (server : Nat → CQResponse β),
      (drainCQ yieldOf server k).length = sumItemsCQ yieldOf server k := by
  intro k
  induction k with
  | zero => intro server; rfl
  | succ k ih =>
    intro server
    rw [drainCQ, sumItemsCQ, List.length_append, ih]

/-- Under a progressing, well-formed stream of k+1 responses (each has a
query section whose yield step succeeds, the first k carry a continue dict,
the last does not, the first response does not match the incoming state,
and no response repeats both the continue dict and the page count of its
predecessor), the loop terminates within k+1 requests and yields exactly
the items of all k+1 responses in server order.  Generic in the yield step,
so it covers the generator and the non-generator branch alike. -/
theorem continuedQuery_drain_aux {β α : Type}
    (yieldOf : List (String × β) → Except Unit (List α)) :
    ∀ (k : Nat) (server : Nat → CQResponse β) (lc : Token) (ll fuel : Nat),
      k + 1 ≤ fuel →
      (∀ j, j < k + 1 → (server j).query.isSome = true) →
      (∀ j, j < k + 1 → exceptOk (yieldOf ((server j).query.getD [])) = true) →
      (∀ j, j < k → (server j).cont.isSome = true) →
      (server k).cont = none →
      ¬((server 0).cont = some lc ∧ (server 0).pagesLen = ll) →
      (∀ j, j < k → ¬((server (j + 1)).cont = (server j).cont ∧
        (server (j + 1)).pagesLen = (server j).pagesLen)) →
      continuedQuery yieldOf server lc ll fuel =
        CQOutcome.out (drainCQ yieldOf server (k + 1)) := by
  intro k
  induction k with
  | zero =>
    intro server lc ll fuel hfuel hquery hyok _ hlast _ _
    obtain ⟨f, rfl⟩ : ∃ f, fuel = f + 1 := ⟨fuel - 1, by omega⟩
    obtain ⟨pages, hp⟩ : ∃ pages, (server 0).query = some pages := by
      have h0 := hquery 0 (by omega)
      cases hq : (server 0).query with
      | none => rw [hq] at h0; exact Bool.noConfusion h0
      | some p => exact ⟨p, rfl⟩
    obtain ⟨items, hi⟩ : ∃ items,
        yieldOf ((server 0).query.getD []) = Except.ok items :=
      exceptOk_exists _ (hyok 0 (by omega))
    rw [hp, Option.getD_some] at hi
    simp only [continuedQuery, hp, hlast, hi]
    rw [drainCQ, drainCQ, hp, Option.getD_some, hi]
    simp [exceptD]
  | succ k ih =>
    intro server lc ll fuel hfuel hquery hyok hcont hlast hstall0 hstall
    obtain ⟨f, rfl⟩ : ∃ f, fuel = f + 1 := ⟨fuel - 1, by omega⟩
    obtain ⟨pages, hp⟩ : ∃ pages, (server 0).query = some pages := by
      have h0 := hquery 0 (by omega)
      cases hq : (server 0).query with
      | none => rw [hq] at h0; exact Bool.noConfusion h0
      | some p => exact ⟨p, rfl⟩
    obtain ⟨c, hc⟩ : ∃ c, (server 0).cont = some c := by
      have h0 := hcont 0 (by omega)
      cases hq : (server 0).cont with
      | none => rw [hq] at h0; exact Bool.noConfusion h0
      | some c => exact ⟨c, rfl⟩
    obtain ⟨items, hi⟩ : ∃ items,
        yieldOf ((server 0).query.getD []) = Except.ok items :=
      exceptOk_exists _ (hyok 0 (by omega))
    rw [hp, Option.getD_some] at hi
    have hguard : ¬(c = lc ∧ pages.length = ll) := by
      rintro ⟨h1, h2⟩
      refine hstall0 ⟨?_, ?_⟩
      · rw [hc, h1]
      · rw [CQResponse.pagesLen, hp]
        exact h2
    have hrec := ih (fun i => server (i + 1)) c pages.length f (by omega)
      (fun j hj => hquery (j + 1) (by omega))
      (fun j hj => hyok (j + 1) (by omega))
      (fun j hj => hcont (j + 1) (by omega))
      hlast
      ?_ ?_
    · simp only [continuedQuery, hp, hc, hi]
      rw [if_neg hguard]
      simp only [hrec]
      conv_rhs => rw [drainCQ]
      rw [hp, Option.getD_some, hi]
      simp [exceptD]
    · rintro ⟨h1, h2⟩
      refine hstall 0 (by omega) ⟨?_, ?_⟩
      · rw [h1, hc]
      · rw [h2, CQResponse.pagesLen, hp]
        rfl
    · intro j hj
      exact hstall (j + 1) (by omega)

/-- Whenever the stream progresses through its first m+1 responses and the
following response repeats both the continue dict and the page count of its
predecessor, the stall guard stops the loop at the m+2nd request, yielding
only the items of the first m+1 responses in server order — regardless of
the rest of the stream.  Generic in the yield step. -/
theorem continuedQuery_stall_aux {β α : Type}
    (yieldOf : List (String × β) → Except Unit (List α)) :
    ∀ (m : Nat) (server : Nat → CQResponse β) (lc : Token) (ll fuel : Nat),
      m + 2 ≤ fuel →
      (∀ j, j < m + 2 → (server j).query.isSome = true) →
      (∀ j, j < m + 1 → exceptOk (yieldOf ((server j).query.getD [])) = true) →
      (∀ j, j < m + 1 → (server j).cont.isSome = true) →
      ¬((server 0).cont = some lc ∧ (server 0).pagesLen = ll) →
      (∀ j, j < m → ¬((server (j + 1)).cont = (server j).cont ∧
        (server (j + 1)).pagesLen = (server j).pagesLen)) →
      (server (m + 1)).cont = (server m).cont →
      (server (m + 1)).pagesLen = (server m).pagesLen →
      continuedQuery yieldOf server lc ll fuel =
        CQOutcome.out (drainCQ yieldOf server (m + 1)) := by
  intro m
  induction m with
  | zero =>
    intro server lc ll fuel hfuel hquery hyok hcont hstall0 _ hrepc hrepl
    obtain ⟨f, rfl⟩ : ∃ f, fuel = f + 1 + 1 := ⟨fuel - 2, by omega⟩
    obtain ⟨pages0, hp0⟩ : ∃ p, (server 0).query = some p := by
      have h0 := hquery 0 (by omega)
      cases hq : (server 0).query with
      | none => rw [hq] at h0; exact Bool.noConfusion h0
      | some p => exact ⟨p, rfl⟩
    obtain ⟨pages1, hp1⟩ : ∃ p, (server 1).query = some p := by
      have h0 := hquery 1 (by omega)
      cases hq : (server 1).query with
      | none => rw [hq] at h0; exact Bool.noConfusion h0
      | some p => exact ⟨p, rfl⟩
    obtain ⟨c0, hc0⟩ : ∃ c, (server 0).cont = some c := by
      have h0 := hcont 0 (by omega)
      cases hq : (server 0).cont with
      | none => rw [hq] at h0; exact Bool.noConfusion h0
      | some c => exact ⟨c, rfl⟩
    obtain ⟨items0, hi0⟩ : ∃ items,
        yieldOf ((server 0).query.getD []) = Except.ok items :=
      exceptOk_exists _ (hyok 0 (by omega))
    rw [hp0, Option.getD_some] at hi0
    have hc1 : (server 1).cont = some c0 := by rw [hrepc, hc0]
    have hlen : pages1.length = pages0.length := by
      have hx := hrepl
      rw [CQResponse.pagesLen, CQResponse.pagesLen, hp0, hp1] at hx
      exact hx
    have hguard0 : ¬(c0 = lc ∧ pages0.length = ll) := by
      rintro ⟨h1, h2⟩
      refine hstall0 ⟨?_, ?_⟩
      · rw [hc0, h1]
      · rw [CQResponse.pagesLen, hp0]
        exact h2
    simp only [continuedQuery, hp0, hc0, hi0]
    rw [if_neg hguard0]
    simp only [continuedQuery, hp1, hc1]
    rw [if_pos (⟨trivial, hlen⟩ : True ∧ pages1.length = pages0.length)]
    rw [drainCQ, drainCQ, hp0, Option.getD_some, hi0]
    simp [exceptD]
  | succ m ih =>
    intro server lc ll fuel hfuel hquery hyok hcont hstall0 hstall hrepc hrepl
    obtain ⟨f, rfl⟩ : ∃ f, fuel = f + 1 := ⟨fuel - 1, by omega⟩
    obtain ⟨pages, hp⟩ : ∃ pages, (server 0).query = some pages := by
      have h0 := hquery 0 (by omega)
      cases hq : (server 0).query with
      | none => rw [hq] at h0; exact Bool.noConfusion h0
      | some p => exact ⟨p, rfl⟩
    obtain ⟨c, hc⟩ : ∃ c, (server 0).cont = some c := by
      have h0 := hcont 0 (by omega)
      cases hq : (server 0).cont with
      | none => rw [hq] at h0; exact Bool.noConfusion h0
      | some c => exact ⟨c, rfl⟩
    obtain ⟨items, hi⟩ : ∃ items,
        yieldOf ((server 0).query.getD []) = Except.ok items :=
      exceptOk_exists _ (hyok 0 (by omega))
    rw [hp, Option.getD_some] at hi
    have hguard : ¬(c = lc ∧ pages.length = ll) := by
      rintro ⟨h1, h2⟩
      refine hstall0 ⟨?_, ?_⟩
      · rw [hc, h1]
      · rw [CQResponse.pagesLen, hp]
        exact h2
    have hrec := ih (fun i => server (i + 1)) c pages.length f (by omega)
      (fun j hj => hquery (j + 1) (by omega))
      (fun j hj => hyok (j + 1) (by omega))
      (fun j hj => hcont (j + 1) (by omega))
      ?_ ?_ hrepc hrepl
    · simp only [continuedQuery, hp, hc, hi]
      rw [if_neg hguard]
      simp only [hrec]
      conv_rhs => rw [drainCQ]
      rw [hp, Option.getD_some, hi]
      simp [exceptD]
    · rintro ⟨h1, h2⟩
      refine hstall 0 (by omega) ⟨?_, ?_⟩
      · rw [h1, hc]
      · rw [h2, CQResponse.pagesLen, hp]
        rfl
    · intro j hj
      exact hstall (j + 1) (by omega)

/-- C2: for every finite, progressing sequence of k+1 server responses the
continuation engine terminates within k+1 requests, yields the items of
every response in server order, and the number of yielded items equals the
total number of result items carried by the responses — both for
generator-mode queries (conjunct a) and for non-generator prop queries
(conjunct b, the mode used by references, links and categories, with every
response carrying the pageid key); and whenever a response repeats the
continue dict and the page count of the previous iteration — after any
progressing prefix of m+1 responses — the stall guard stops the engine at
that request, yielding only the items of the first m+1 responses,
regardless of the rest of the stream, again in both modes (conjuncts c and
d). -/
theorem C2_continuation {α : Type} :
    (∀ (server : Nat → CQResponse α) (k fuel : Nat),
      k + 1 ≤ fuel →
      (∀ j, j < k + 1 → (server j).query.isSome = true) →
      (∀ j, j < k → (server j).cont.isSome = true) →
      (server k).cont = none →
      ¬((server 0).cont = some [] ∧ (server 0).pagesLen = 0) →
      (∀ j, j < k → ¬((server (j + 1)).cont = (server j).cont ∧
        (server (j + 1)).pagesLen = (server j).pagesLen)) →
      continuedQuery genYield server [] 0 fuel =
          CQOutcome.out (drainCQ genYield server (k + 1)) ∧
        (drainCQ genYield server (k + 1)).length =
          sumItemsCQ genYield server (k + 1)) ∧
    (∀ (pid : String) (server : Nat → CQResponse (Option (List α))) (k fuel : Nat),
      k + 1 ≤ fuel →
      (∀ j, j < k + 1 → (server j).query.isSome = true) →
      (∀ j, j < k + 1 → (assocFind pid ((server j).query.getD [])).isSome = true) →
      (∀ j, j < k → (server j).cont.isSome = true) →
      (server k).cont = none →
      ¬((server 0).cont = some [] ∧ (server 0).pagesLen = 0) →
      (∀ j, j < k → ¬((server (j + 1)).cont = (server j).cont ∧
        (server (j + 1)).pagesLen = (server j).pagesLen)) →
      continuedQuery (propYield pid) server [] 0 fuel =
          CQOutcome.out (drainCQ (propYield pid) server (k + 1)) ∧
        (drainCQ (propYield pid) server (k + 1)).length =
          sumItemsCQ (propYield pid) server (k + 1)) ∧
    (∀ (server : Nat → CQResponse α) (m fuel : Nat),
      m + 2 ≤ fuel →
      (∀ j, j < m + 2 → (server j).query.isSome = true) →
      (∀ j, j < m + 1 → (server j).cont.isSome = true) →
      ¬((server 0).cont = some [] ∧ (server 0).pagesLen = 0) →
      (∀ j, j < m → ¬((server (j + 1)).cont = (server j).cont ∧
        (server (j + 1)).pagesLen = (server j).pagesLen)) →
      (server (m + 1)).cont = (server m).cont →
      (server (m + 1)).pagesLen = (server m).pagesLen →
      continuedQuery genYield server [] 0 fuel =
        CQOutcome.out (drainCQ genYield server (m + 1))) ∧
    (∀ (pid : String) (server : Nat → CQResponse (Option (List α))) (m fuel : Nat),
      m + 2 ≤ fuel →
      (∀ j, j < m + 2 → (server j).query.isSome = true) →
      (∀ j, j < m + 1 → (assocFind pid ((server j).query.getD [])).isSome = true) →
      (∀ j, j < m + 1 → (server j).cont.isSome = true) →
      ¬((server 0).cont = some [] ∧ (server 0).pagesLen = 0) →
      (∀ j, j < m → ¬((server (j + 1)).cont = (server j).cont ∧
        (server (j + 1)).pagesLen = (server j).pagesLen)) →
      (server (m + 1)).cont = (server m).cont →
      (server (m + 1)).pagesLen = (server m).pagesLen →
      continuedQuery (propYield pid) server [] 0 fuel =
        CQOutcome.out (drainCQ (propYield pid) server (m + 1))) := by
  refine ⟨?_, ?_, ?_, ?_⟩
  · intro server k fuel hfuel hquery hcont hlast hstall0 hstall
    exact ⟨continuedQuery_drain_aux genYield k server [] 0 fuel hfuel hquery
        (fun j hj => rfl) hcont hlast hstall0 hstall,
      drainCQ_length genYield (k + 1) server⟩
  · intro pid server k fuel hfuel hquery hlk hcont hlast hstall0 hstall
    exact ⟨continuedQuery_drain_aux (propYield pid) k server [] 0 fuel hfuel hquery
        (fun j hj => propYield_ok pid _ (hlk j hj)) hcont hlast hstall0 hstall,
      drainCQ_length (propYield pid) (k + 1) server⟩
  · intro server m fuel hfuel hquery hcont hstall0 hstall hrepc hrepl
    exact continuedQuery_stall_aux genYield m server [] 0 fuel hfuel hquery
      (fun j hj => rfl) hcont hstall0 hstall hrepc hrepl
  · intro pid server m fuel hfuel hquery hlk hcont hstall0 hstall hrepc hrepl
    exact continuedQuery_stall_aux (propYield pid) m server [] 0 fuel hfuel hquery
      (fun j hj => propYield_ok pid _ (hlk j hj)) hcont hstall0 hstall hrepc hrepl

/-- C2 witness: the concrete generator server is fully drained in two
requests in server order with matching item count; the concrete
non-generator server for pageid 42 likewise; and the concrete stalling
server, whose third response repeats the second response's continue dict
and page count after a progressing two-response prefix, terminates at the
third request yielding only the first two responses' items. -/
theorem C2_continuation_witness :
    (continuedQuery genYield c2server [] 0 2 =
        CQOutcome.out (drainCQ genYield c2server 2) ∧
      (drainCQ genYield c2server 2).length = sumItemsCQ genYield c2server 2) ∧
    (continuedQuery (propYield "42") c2propServer [] 0 2 =
        CQOutcome.out (drainCQ (propYield "42") c2propServer 2) ∧
      (drainCQ (propYield "42") c2propServer 2).length =
        sumItemsCQ (propYield "42") c2propServer 2) ∧
    continuedQuery genYield c2stallServer [] 0 3 =
      CQOutcome.out (drainCQ genYield c2stallServer 2) :=
  ⟨(@C2_continuation Nat).1 c2server 1 2 (by decide) (by decide) (by decide)
      (by decide) (by decide) (by decide),
   (@C2_continuation String).2.1 "42" c2propServer 1 2 (by decide) (by decide)
      (by decide) (by decide) (by decide) (by decide) (by decide),
   (@C2_continuation Nat).2.2.1 c2stallServer 1 3 (by decide) (by decide)
      (by decide) (by decide) (by decide) (by decide) (by decide)⟩

/- =========================================================================
   C9
   ========================================================================= -/

/-- A nonempty needle does not occur at or beyond the end of the string. -/
theorem occursAt_big (s sub : PyStr) (c : Char) (cs : PyStr) (j : Nat)
    (hsub : sub = c :: cs) (hj : s.length ≤ j) : occursAt s sub j = false := by
  have hd : s.drop j = [] := List.drop_eq_nil_iff.2 hj
  rw [occursAt, hd, hsub]
  rfl

/-- A nonempty needle occurs only strictly inside the string. -/
theorem occursAt_lt_length (s sub : PyStr) (c : Char) (cs : PyStr) (j : Nat)
    (hsub : sub = c :: cs) (h : occursAt s sub j = true) : j < s.length := by
  by_contra hge
  rw [Nat.not_lt] at hge
  rw [occursAt_big s sub c cs j hsub hge] at h
  exact Bool.noConfusion h

/-- The bounded scan returns j exactly when j is the first position in its
window at which the needle occurs. -/
theorem findFromAux_some_iff (s sub : PyStr) :
    ∀ (fuel i j : Nat), findFromAux s sub i fuel = some j ↔
      (i ≤ j ∧ j < i + fuel ∧ occursAt s sub j = true ∧
        ∀ m, m < j → i ≤ m → occursAt s sub m = false) := by
  intro fuel
  induction fuel with
  | zero =>
    intro i j
    constructor
    · intro h
      exact absurd h (by simp [findFromAux])
    · rintro ⟨h1, h2, _, _⟩
      exact absurd h2 (by omega)
  | succ fuel ih =>
    intro i j
    simp only [findFromAux]
    by_cases hocc : occursAt s sub i = true
    · rw [if_pos hocc]
      constructor
      · intro h
        obtain rfl : i = j := Option.some.inj h
        refine ⟨Nat.le_refl _, by omega, hocc, ?_⟩
        intro m hm him
        exact absurd hm (Nat.not_lt.mpr him)
      · rintro ⟨h1, _, hj, hmin⟩
        rcases Nat.eq_or_lt_of_le h1 with rfl | hlt
        · rfl
        · exfalso
          have hfalse := hmin i hlt (Nat.le_refl i)
          rw [hfalse] at hocc
          exact Bool.noConfusion hocc
    · have hoccf := bool_eq_false hocc
      rw [if_neg hocc, ih (i + 1)]
      constructor
      · rintro ⟨h1, h2, h3, h4⟩
        refine ⟨by omega, by omega, h3, ?_⟩
        intro m hm him
        rcases Nat.eq_or_lt_of_le him with rfl | hlt
        · exact hoccf
        · exact h4 m hm (by omega)
      · rintro ⟨h1, h2, h3, h4⟩
        have hne : i ≠ j := by
          intro heq
          rw [← heq] at h3
          rw [hoccf] at h3
          exact Bool.noConfusion h3
        refine ⟨by omega, by omega, h3, ?_⟩
        intro m hm him
        exact h4 m hm (by omega)

/-- The bounded scan returns none exactly when the needle occurs nowhere in
its window. -/
theorem findFromAux_none_iff (s sub : PyStr) :
    ∀ (fuel i : Nat), findFromAux s sub i fuel = none ↔
      ∀ j, i ≤ j → j < i + fuel → occursAt s sub j = false := by
  intro fuel
  induction fuel with
  | zero =>
    intro i
    constructor
    · intro _ j h1 h2
      exact absurd h2 (by omega)
    · intro _
      rfl
  | succ fuel ih =>
    intro i
    simp only [findFromAux]
    by_cases hocc : occursAt s sub i = true
    · rw [if_pos hocc]
      constructor
      · intro h
        exact absurd h (by simp)
      · intro h
        exfalso
        have hfalse := h i (Nat.le_refl i) (by omega)
        rw [hfalse] at hocc
        exact Bool.noConfusion hocc
    · have hoccf := bool_eq_false hocc
      rw [if_neg hocc, ih (i + 1)]
      constructor
      · intro h j h1 h2
        rcases Nat.eq_or_lt_of_le h1 with rfl | hlt
        · exact hoccf
        · exact h j (by omega) (by omega)
      · intro h j h1 h2
        exact h j (by omega) (by omega)

/-- str.index(sub, start) with a nonempty needle returns i exactly when i is
the first occurrence of the needle at or after start. -/
theorem strFind_some_iff (s sub : PyStr) (c : Char) (cs : PyStr) (hsub : sub = c :: cs)
    (start i : Nat) :
    strFind s sub start = some i ↔ firstOccurFrom s sub start i := by
  rw [strFind, findFromAux_some_iff, firstOccurFrom]
  constructor
  · rintro ⟨h1, _, h3, h4⟩
    exact ⟨h1, h3, fun j hj hsj => h4 j hj hsj⟩
  · rintro ⟨h1, h2, h3⟩
    have hb := occursAt_lt_length s sub c cs i hsub h2
    exact ⟨h1, by omega, h2, fun m hm him => h3 m hm him⟩

/-- str.index(sub, start) with a nonempty needle fails exactly when the
needle occurs nowhere at or after start. -/
theorem strFind_none_iff (s sub : PyStr) (c : Char) (cs : PyStr) (hsub : sub = c :: cs)
    (start : Nat) :
    strFind s sub start = none ↔ ∀ j, start ≤ j → occursAt s sub j = false := by
  rw [strFind, findFromAux_none_iff]
  constructor
  · intro h j h1
    by_cases hj : j < start + (s.length + 1 - start)
    · exact h j h1 hj
    · exact occursAt_big s sub c cs j hsub (by omega)
  · intro h j h1 _
    exact h j h1

/-- section returns the no-match sentinel exactly when the heading marker
occurs nowhere in the content. -/
theorem sectionOf_none_iff (c t : PyStr) :
    sectionOf c t = none ↔ ∀ j, occursAt c (sectionFmt t) j = false := by
  rw [sectionOf]
  cases hf : strFind c (sectionFmt t) 0 with
  | none =>
    simp only [hf]
    constructor
    · intro _ j
      exact ((strFind_none_iff c (sectionFmt t) '=' _ rfl 0).1 hf) j (Nat.zero_le j)
    · intro _
      trivial
  | some i =>
    simp only [hf]
    constructor
    · intro h
      exact Option.noConfusion h
    · intro h
      exfalso
      have hfo := (strFind_some_iff c (sectionFmt t) '=' _ rfl 0 i).1 hf
      have hocc := hfo.2.1
      rw [h i] at hocc
      exact Bool.noConfusion hocc

/-- When the marker first occurs at i and the next == marker first occurs at
n, section returns the slice between the end of the marker and n, lstripped
of equals signs and stripped of whitespace. -/
theorem sectionOf_found (c t : PyStr) (i n : Nat)
    (h1 : firstOccurFrom c (sectionFmt t) 0 i)
    (h2 : firstOccurFrom c eqeqStr (i + (sectionFmt t).length) n) :
    sectionOf c t =
      some (pyStripWs (pyLstripEq ((c.drop (i + (sectionFmt t).length)).take
        (n - (i + (sectionFmt t).length))))) := by
  have hf : strFind c (sectionFmt t) 0 = some i :=
    (strFind_some_iff c (sectionFmt t) '=' _ rfl 0 i).2 h1
  have hn : strFind c eqeqStr (i + (sectionFmt t).length) = some n :=
    (strFind_some_iff c eqeqStr '=' _ rfl _ n).2 h2
  rw [sectionOf]
  simp only [hf, hn, Option.getD_some]

/-- When the marker first occurs at i and no == marker occurs afterwards,
section returns the slice from the end of the marker to the end of the
content, lstripped of equals signs and stripped of whitespace. -/
theorem sectionOf_found_end (c t : PyStr) (i : Nat)
    (h1 : firstOccurFrom c (sectionFmt t) 0 i)
    (h2 : ∀ j, i + (sectionFmt t).length ≤ j → occursAt c eqeqStr j = false) :
    sectionOf c t = some (pyStripWs (pyLstripEq (c.drop (i + (sectionFmt t).length)))) := by
  have hf : strFind c (sectionFmt t) 0 = some i :=
    (strFind_some_iff c (sectionFmt t) '=' _ rfl 0 i).2 h1
  have hn : strFind c eqeqStr (i + (sectionFmt t).length) = none :=
    (strFind_none_iff c eqeqStr '=' _ rfl _).2 h2
  rw [sectionOf]
  simp only [hf, hn, Option.getD_none]
  have htake : (c.drop (i + (sectionFmt t).length)).take
      (c.length - (i + (sectionFmt t).length)) = c.drop (i + (sectionFmt t).length) := by
    have hld := List.length_drop (i + (sectionFmt t).length) c
    rw [← hld, List.take_length]
  rw [htake]

/-- C9: section(title) is a pure function of the content string.  On the
spec example content, section Intro returns hello and section Missing
returns the no-match sentinel none; in general the result is none exactly
when the heading marker occurs nowhere in the content, and when the marker
first occurs at i the result is the substring from the end of the marker to
the first following == marker (or to the end of text when there is none),
trimmed of leading equals signs and surrounding whitespace. -/
theorem C9_section :
    sectionOf introContent "Intro".toList = some "hello".toList ∧
    sectionOf introContent "Missing".toList = none ∧
    (∀ c t, sectionOf c t = none ↔ ∀ j, occursAt c (sectionFmt t) j = false) ∧
    (∀ c t i n, firstOccurFrom c (sectionFmt t) 0 i →
      firstOccurFrom c eqeqStr (i + (sectionFmt t).length) n →
      sectionOf c t =
        some (pyStripWs (pyLstripEq ((c.drop (i + (sectionFmt t).length)).take
          (n - (i + (sectionFmt t).length)))))) ∧
    (∀ c t i, firstOccurFrom c (sectionFmt t) 0 i →
      (∀ j, i + (sectionFmt t).length ≤ j → occursAt c eqeqStr j = false) →
      sectionOf c t =
        some (pyStripWs (pyLstripEq (c.drop (i + (sectionFmt t).length))))) :=
  ⟨by decide, by decide, sectionOf_none_iff, sectionOf_found, sectionOf_found_end⟩

/-- C9 witness: on the spec example content the marker for Intro first
occurs at position 0, the next == marker first occurs at position 18, and
section returns the trimmed slice between positions 11 and 18, which is
hello. -/
theorem C9_section_witness :
    sectionOf introContent "Intro".toList =
      some (pyStripWs (pyLstripEq ((introContent.drop
        (0 + (sectionFmt "Intro".toList).length)).take
        (18 - (0 + (sectionFmt "Intro".toList).length))))) :=
  C9_section.2.2.2.1 introContent "Intro".toList 0 18 (by decide) (by decide)
